import Mathlib

/-! Verification of relish-notifier (`main.go`): the order-status classifier,
the credential resolver, the logger-level mapping, the status scrape and the
polling orchestrator `runNotifier`.  External collaborators — the browser
session, the system keyring, the process environment and signal delivery —
are modelled as explicit oracle inputs, and each Lean function below mirrors
the Go control flow over those inputs. -/

/-- Boolean test that `p` is a leading segment of `l` (character lists). -/
def pfxOf : List Char → List Char → Bool
  | [], _ => true
  | _ :: _, [] => false
  | a :: p, b :: l => a = b && pfxOf p l

/-- Boolean test that `pat` occurs contiguously inside `l`. -/
def subOf (pat : List Char) : List Char → Bool
  | [] => pfxOf pat []
  | b :: l => pfxOf pat (b :: l) || subOf pat l

/-- Substring test on strings: `strContains s pat` is `true` when `pat` occurs
inside `s`.  Used to state that an error message "names" an environment
variable. -/
def strContains (s pat : String) : Bool := subOf pat.data s.data

/-- Closed set of order states (the `OrderStatus` constants, main.go:44-49).
Go represents them as distinguished values of a string type; the closed
enumeration carries the same four values. -/
inductive OrderStatus where
  | Placed
  | Preparing
  | Arrived
  | Unknown
deriving DecidableEq

/-- String representation of an `OrderStatus` (`OrderStatus.String`,
main.go:54-56): the underlying constant string. -/
def OrderStatus.String : OrderStatus → String
  | .Placed => "Order Placed"
  | .Preparing => "Preparing Your Order"
  | .Arrived => "Order Arrived"
  | .Unknown => "Unknown"

/-- Classifier (`textToStatus`, main.go:59-70): exact match against the three
canonical phrases, with `Unknown` as the default case of the switch. -/
def textToStatus (text : String) : OrderStatus :=
  if text = OrderStatus.Placed.String then .Placed
  else if text = OrderStatus.Preparing.String then .Preparing
  else if text = OrderStatus.Arrived.String then .Arrived
  else .Unknown

/-- Run configuration (struct `Config`, main.go:72-80).  `PageTimeout` is in
nanoseconds, as Go's `time.Duration`. -/
structure Config where
  Headless : Bool
  Extensions : Bool
  Interval : Int
  Once : Bool
  PageTimeout : Int
  Command : String
  Verbose : Int

/-- Credential pair (struct `Credentials`, main.go:82-85). -/
structure Credentials where
  Username : String
  Password : String
deriving DecidableEq

/-- Oracle for `getCredentials`: the outcome of each `keyring.Get` call
(the stored secret, or the error's text) and the values of the two
environment variables (empty string when unset, as `os.Getenv` reports). -/
structure CredInput where
  keyringEmail : Except String String
  keyringPassword : Except String String
  envUsername : String
  envPassword : String

/-- Final emptiness check of `getCredentials` (main.go:244-246). -/
def credFinal (username password : String) (qs : List (String × String)) :
    Except String Credentials × List (String × String) :=
  if username = "" ∨ password = "" then
    (.error "missing credentials: both keyring and environment variables are empty", qs)
  else
    (.ok ⟨username, password⟩, qs)

/-- Password half of `getCredentials` (main.go:235-242): one keyring lookup,
then the environment fallback if it failed. -/
def credPassword (i : CredInput) (username : String) (qs : List (String × String)) :
    Except String Credentials × List (String × String) :=
  let qs := qs ++ [("relish-notifier", "PASSWORD")]
  match i.keyringPassword with
  | .error e =>
      if i.envPassword = "" then
        (.error ("failed to get password from keyring (" ++ e ++
          ") and RELISH_PASSWORD environment variable is not set"), qs)
      else credFinal username i.envPassword qs
  | .ok p => credFinal username p qs

/-- Credential resolution (`getCredentials`, main.go:222-252).  Besides the
Go result it returns the list of keyring queries performed, so that "one
store lookup per field, no retry" is visible in the model. -/
def getCredentials (i : CredInput) :
    Except String Credentials × List (String × String) :=
  let qs := [("relish-notifier", "EMAIL")]
  match i.keyringEmail with
  | .error e =>
      if i.envUsername = "" then
        (.error ("failed to get username from keyring (" ++ e ++
          ") and RELISH_USERNAME environment variable is not set"), qs)
      else credPassword i i.envUsername qs
  | .ok u => credPassword i u qs

/-- Go's `slog.LevelDebug`. -/
def slogLevelDebug : Int := -4

/-- Go's `slog.LevelInfo`. -/
def slogLevelInfo : Int := 0

/-- Go's `slog.LevelWarn`. -/
def slogLevelWarn : Int := 4

/-- Handler level selected by `setupLogger` (main.go:255-273) for a verbosity
count. -/
def setupLogger (verbose : Int) : Int :=
  if verbose ≤ 0 then slogLevelWarn
  else if verbose = 1 then slogLevelInfo
  else slogLevelDebug

/-- Whether a handler configured at `handlerLevel` emits records of level
`msgLevel`: slog enables a record whose level is at least the handler's. -/
def levelEnabled (handlerLevel msgLevel : Int) : Bool :=
  decide (handlerLevel ≤ msgLevel)

/-- Oracle for one scrape of the page: the result of locating the
`.schedule-card-label` element, and of reading its text. -/
structure PageRead where
  element : Except String Unit
  text : Except String String

/-- Go's `unicode.IsSpace`: in Latin-1 the characters
`\t \n \v \f \r ' '` U+0085 U+00A0, and beyond Latin-1 the Unicode
White_Space code points U+1680, U+2000-U+200A, U+2028, U+2029, U+202F,
U+205F and U+3000.  These are exactly the characters `strings.TrimSpace`
strips from the ends of the scraped text. -/
def goIsSpace (c : Char) : Bool :=
  (0x9 ≤ c.toNat && c.toNat ≤ 0xD) || c.toNat = 0x20 || c.toNat = 0x85 ||
  c.toNat = 0xA0 || c.toNat = 0x1680 ||
  (0x2000 ≤ c.toNat && c.toNat ≤ 0x200A) || c.toNat = 0x2028 ||
  c.toNat = 0x2029 || c.toNat = 0x202F || c.toNat = 0x205F || c.toNat = 0x3000

/-- Go's `strings.TrimSpace`: drops leading and trailing `unicode.IsSpace`
characters. -/
def trimSpace (s : String) : String :=
  String.mk (((s.data.dropWhile goIsSpace).reverse.dropWhile goIsSpace).reverse)

/-- Status scrape (`CheckOrderStatus`, main.go:192-213): returns the parsed
status together with Go's error value (`none` on success). -/
def CheckOrderStatus (pr : PageRead) : OrderStatus × Option String :=
  match pr.element with
  | .error e => (.Unknown, some ("failed to find order status element: " ++ e))
  | .ok _ =>
    match pr.text with
    | .error e => (.Unknown, some ("failed to get element text: " ++ e))
    | .ok t => (textToStatus (trimSpace t), none)

/-- Oracle for one iteration of the monitoring loop in `runNotifier`:
whether cancellation is observed at the top of the iteration, the page
scrape of this tick, whether the configured command would fail, whether a
signal arrives during the inter-poll wait, and the `Refresh` outcome. -/
structure IterInput where
  cancelledAtTop : Bool
  pageRead : PageRead
  cmdFails : Bool
  cancelledInWait : Bool
  refreshError : Option String

/-- How the run ends: `exited c` is a direct `os.Exit(c)` (deferred calls do
not run), `returned e` is `runNotifier` returning error `e`, `outOfFuel`
means the iteration oracle was exhausted while the loop was still going. -/
inductive ProcOutcome where
  | exited (code : Nat)
  | returned (err : Option String)
  | outOfFuel
deriving DecidableEq

/-- Observable effects of a run: whether the browser session was opened and
whether `Notifier.Close` ran, the lines written by `fmt.Println`, and counts
of post-arrival command executions, status checks and page reloads. -/
structure Trace where
  sessionOpened : Bool
  closeCalled : Bool
  prints : List String
  commandRuns : Nat
  checks : Nat
  reloads : Nat
deriving DecidableEq

/-- Trace at the start of a run: nothing has happened yet. -/
def initTrace : Trace := ⟨false, false, [], 0, 0, 0⟩

/-- Monitoring loop of `runNotifier` (main.go:341-382), consuming one
`IterInput` per iteration.  A failed command run only produces a log line in
Go, so `cmdFails` has no effect here either; a failed `Refresh` is likewise
only logged and the loop continues. -/
def runLoop (config : Config) : List IterInput → Trace → ProcOutcome × Trace
  | [], tr => (.outOfFuel, tr)
  | it :: rest, tr =>
    if it.cancelledAtTop then
      (.returned none, tr)
    else
      let r := CheckOrderStatus it.pageRead
      let tr := { tr with checks := tr.checks + 1 }
      if r.2 = none ∧ r.1 = OrderStatus.Arrived then
        let tr := { tr with prints := tr.prints ++ ["order has arrived"] }
        let tr := if config.Command = "" then tr
                  else { tr with commandRuns := tr.commandRuns + 1 }
        (.returned none, tr)
      else if config.Once then
        (.exited 1, { tr with prints := tr.prints ++ ["order has not arrived"] })
      else if it.cancelledInWait then
        (.returned none, tr)
      else
        runLoop config rest { tr with reloads := tr.reloads + 1 }

/-- Oracle for a whole run of `runNotifier`: the credential-resolution
result, the browser-connect outcome, the login outcome, and the per-iteration
oracles. -/
structure RunInput where
  credsResult : Except String Credentials
  connectError : Option String
  loginError : Option String
  iters : List IterInput

/-- Effect of `defer notifier.Close()` (main.go:315): the deferred close runs
exactly when `runNotifier` returns, not when `os.Exit` fires inside it. -/
def closeOnReturn : ProcOutcome × Trace → ProcOutcome × Trace
  | (.returned e, tr) => (.returned e, { tr with closeCalled := true })
  | r => r

/-- Orchestrator (`runNotifier`, main.go:304-383) over a `RunInput` oracle.
Credential failure returns before the notifier exists; a connect failure
returns before the session handle is assigned (so `Close` is a no-op there);
after a successful connect the session is open and login failure or the loop
decide the outcome. -/
def runNotifier (config : Config) (inp : RunInput) : ProcOutcome × Trace :=
  match inp.credsResult with
  | .error e => (.returned (some e), initTrace)
  | .ok _ =>
    match inp.connectError with
    | some e =>
      closeOnReturn (.returned (some ("failed to connect to browser: " ++ e)), initTrace)
    | none =>
      let tr := { initTrace with sessionOpened := true }
      match inp.loginError with
      | some e => closeOnReturn (.returned (some ("failed to login: " ++ e)), tr)
      | none => closeOnReturn (runLoop config inp.iters tr)

/-- Exit code of the whole process for a given outcome: `main`
(main.go:297-300) maps a returned error to exit 1 and a nil return to
exit 0; a direct `os.Exit(c)` is code `c`. -/
def processExitCode : ProcOutcome → Option Nat
  | .returned none => some 0
  | .returned (some _) => some 1
  | .exited c => some c
  | .outOfFuel => none

/-- Helper: whenever the deferred-close wrapper yields a `returned` outcome,
the close has run. -/
theorem closeOnReturn_closes (r : ProcOutcome × Trace) (e : Option String)
    (h : (closeOnReturn r).1 = .returned e) :
    (closeOnReturn r).2.closeCalled = true := by
  rcases r with ⟨o, t⟩
  cases o <;> simp_all [closeOnReturn]

/-- C1: `textToStatus` is a total classifier: each of the three canonical
phrases maps to its status, and every other string — empty, case-variant,
padded, or otherwise — maps to `Unknown`. -/
theorem textToStatus_total_classification :
    textToStatus "Order Placed" = OrderStatus.Placed ∧
    textToStatus "Preparing Your Order" = OrderStatus.Preparing ∧
    textToStatus "Order Arrived" = OrderStatus.Arrived ∧
    ∀ s : String, s ≠ "Order Placed" → s ≠ "Preparing Your Order" →
      s ≠ "Order Arrived" → textToStatus s = OrderStatus.Unknown := by
  refine ⟨rfl, rfl, rfl, ?_⟩
  intro s h1 h2 h3
  simp [textToStatus, OrderStatus.String, h1, h2, h3]

/-- Witness for C1 at the concrete non-canonical string "order placed". -/
theorem textToStatus_total_classification_witness :
    textToStatus "order placed" = OrderStatus.Unknown :=
  textToStatus_total_classification.2.2.2 "order placed"
    (by decide) (by decide) (by decide)

/-- C9: classification and display round-trip: for every `OrderStatus` value
`s`, `textToStatus s.String = s`. -/
theorem textToStatus_String_roundtrip :
    ∀ s : OrderStatus, textToStatus s.String = s := by
  intro s
  cases s <;> rfl

/-- C8: if both keyring lookups fail and both environment variables are set
to non-empty values `u` and `p`, resolution succeeds with exactly `(u, p)`,
and the query list shows each store key consulted exactly once — the store
failure triggers the environment fallback with no retry against the store. -/
theorem getCredentials_env_fallback :
    ∀ (e1 e2 u p : String), u ≠ "" → p ≠ "" →
      getCredentials ⟨.error e1, .error e2, u, p⟩ =
        (.ok ⟨u, p⟩, [("relish-notifier", "EMAIL"), ("relish-notifier", "PASSWORD")]) := by
  intro e1 e2 u p hu hp
  simp [getCredentials, credPassword, credFinal, hu, hp]

/-- Witness for C8 at concrete keyring errors and environment values. -/
theorem getCredentials_env_fallback_witness :
    getCredentials ⟨.error "no keyring backend", .error "no keyring backend",
        "user@example.com", "hunter2"⟩ =
      (.ok ⟨"user@example.com", "hunter2"⟩,
        [("relish-notifier", "EMAIL"), ("relish-notifier", "PASSWORD")]) :=
  getCredentials_env_fallback "no keyring backend" "no keyring backend"
    "user@example.com" "hunter2" (by decide) (by decide)

/-- C2 counterexample: with the username keyring lookup failing and
`RELISH_USERNAME` unset, resolution fails with a message that names only
`RELISH_USERNAME`; the string `RELISH_PASSWORD` does not occur in it, so the
error does not name both variables. -/
theorem getCredentials_message_not_both :
    (getCredentials ⟨.error "secret not found in keyring",
        .error "secret not found in keyring", "", ""⟩).1 =
      .error "failed to get username from keyring (secret not found in keyring) and RELISH_USERNAME environment variable is not set" ∧
    strContains "failed to get username from keyring (secret not found in keyring) and RELISH_USERNAME environment variable is not set" "RELISH_PASSWORD" = false := by
  constructor
  · rfl
  · decide

/-- C2 amended: when a field's store lookup fails and that field's
environment fallback is empty, the error names only that field's variable
(`RELISH_USERNAME` for the username, `RELISH_PASSWORD` for the password);
when both lookups succeed but a final value is empty, the error names
neither variable. -/
theorem getCredentials_error_messages :
    (∀ e kp p, (getCredentials ⟨.error e, kp, "", p⟩).1 =
        .error ("failed to get username from keyring (" ++ e ++
          ") and RELISH_USERNAME environment variable is not set")) ∧
    (∀ u e2 ue, (getCredentials ⟨.ok u, .error e2, ue, ""⟩).1 =
        .error ("failed to get password from keyring (" ++ e2 ++
          ") and RELISH_PASSWORD environment variable is not set")) ∧
    (∀ u p, (u = "" ∨ p = "") →
      (getCredentials ⟨.ok u, .ok p, "x", "y"⟩).1 =
        .error "missing credentials: both keyring and environment variables are empty") := by
  refine ⟨?_, ?_, ?_⟩
  · intro e kp p
    simp [getCredentials]
  · intro u e2 ue
    simp [getCredentials, credPassword]
  · intro u p h
    simp [getCredentials, credPassword, credFinal, h]

/-- Witness for the amended C2 at a concrete empty stored username. -/
theorem getCredentials_error_messages_witness :
    (getCredentials ⟨.ok "", .ok "pw", "x", "y"⟩).1 =
      .error "missing credentials: both keyring and environment variables are empty" :=
  getCredentials_error_messages.2.2 "" "pw" (Or.inl rfl)

/-- C7: the verbosity count maps to log levels as specified: `v ≤ 0`
(negative included) enables warnings but neither info nor debug, `v = 1`
enables info but not debug, and `v ≥ 2` enables debug. -/
theorem setupLogger_verbosity_mapping :
    ∀ v : Int,
      (v ≤ 0 →
        levelEnabled (setupLogger v) slogLevelWarn = true ∧
        levelEnabled (setupLogger v) slogLevelInfo = false ∧
        levelEnabled (setupLogger v) slogLevelDebug = false) ∧
      (v = 1 →
        levelEnabled (setupLogger v) slogLevelInfo = true ∧
        levelEnabled (setupLogger v) slogLevelDebug = false) ∧
      (2 ≤ v →
        levelEnabled (setupLogger v) slogLevelDebug = true) := by
  intro v
  refine ⟨fun h => ?_, fun h => ?_, fun h => ?_⟩
  · simp [setupLogger, levelEnabled, h, slogLevelWarn, slogLevelInfo, slogLevelDebug]
  · subst h
    decide
  · have h1 : ¬ v ≤ 0 := by omega
    have h2 : ¬ v = 1 := by omega
    simp [setupLogger, levelEnabled, h1, h2, slogLevelDebug]

/-- Witness for C7 at the concrete negative verbosity `-3`. -/
theorem setupLogger_verbosity_mapping_witness :
    levelEnabled (setupLogger (-3)) slogLevelWarn = true ∧
    levelEnabled (setupLogger (-3)) slogLevelInfo = false ∧
    levelEnabled (setupLogger (-3)) slogLevelDebug = false :=
  (setupLogger_verbosity_mapping (-3)).1 (by decide)

/-- C10: `CheckOrderStatus` classifies the trimmed element text: every
successful read of text `t` yields `textToStatus (trimSpace t)` with no
error, so the padded phrase " Order Arrived " is classified `Arrived` at
this level even though the classifier alone maps it to `Unknown`; the trim
also strips non-Latin-1 White_Space such as U+2000. -/
theorem CheckOrderStatus_trims :
    (∀ (pr : PageRead) (t : String), pr.element = .ok () → pr.text = .ok t →
      CheckOrderStatus pr = (textToStatus (trimSpace t), none)) ∧
    CheckOrderStatus ⟨.ok (), .ok " Order Arrived "⟩ = (OrderStatus.Arrived, none) ∧
    CheckOrderStatus ⟨.ok (), .ok "\u2000Order Arrived"⟩ = (OrderStatus.Arrived, none) ∧
    textToStatus " Order Arrived " = OrderStatus.Unknown := by
  refine ⟨?_, by decide, by decide, by decide⟩
  intro pr t he ht
  rcases pr with ⟨el, tx⟩
  simp_all [CheckOrderStatus]

/-- Witness for C10 at a concrete tab-and-newline padded text. -/
theorem CheckOrderStatus_trims_witness :
    CheckOrderStatus ⟨.ok (), .ok "\tPreparing Your Order\n"⟩ =
      (textToStatus (trimSpace "\tPreparing Your Order\n"), none) :=
  CheckOrderStatus_trims.1 ⟨.ok (), .ok "\tPreparing Your Order\n"⟩
    "\tPreparing Your Order\n" rfl rfl

/-- C3 counterexample: a single-shot run whose one check classifies
"Order Placed" terminates through `os.Exit(1)`, so the deferred close never
runs and the process ends with the session still open. -/
theorem runNotifier_exit_without_close :
    (runNotifier ⟨true, true, 30, true, 10000000000, "", 0⟩
        ⟨.ok ⟨"u", "p"⟩, none, none,
          [⟨false, ⟨.ok (), .ok "Order Placed"⟩, false, false, none⟩]⟩).1 =
      .exited 1 ∧
    (runNotifier ⟨true, true, 30, true, 10000000000, "", 0⟩
        ⟨.ok ⟨"u", "p"⟩, none, none,
          [⟨false, ⟨.ok (), .ok "Order Placed"⟩, false, false, none⟩]⟩).2.sessionOpened =
      true ∧
    (runNotifier ⟨true, true, 30, true, 10000000000, "", 0⟩
        ⟨.ok ⟨"u", "p"⟩, none, none,
          [⟨false, ⟨.ok (), .ok "Order Placed"⟩, false, false, none⟩]⟩).2.closeCalled =
      false := by
  refine ⟨by decide, by decide, by decide⟩

/-- C3 amended: on every path on which `runNotifier` returns — fatal errors
after the session is open, signal-triggered shutdown, and arrival — an open
session has been closed; only the direct `os.Exit(1)` taken by the
single-shot not-arrived path escapes the deferred close. -/
theorem runNotifier_close_on_return :
    ∀ (config : Config) (inp : RunInput) (e : Option String),
      (runNotifier config inp).1 = .returned e →
      (runNotifier config inp).2.sessionOpened = true →
      (runNotifier config inp).2.closeCalled = true := by
  intro config inp e h1 h2
  unfold runNotifier at h1 h2 ⊢
  rcases hc : inp.credsResult with ec | c
  · rw [hc] at h2
    simp [initTrace] at h2
  · rw [hc] at h1
    rcases hb : inp.connectError with _ | eb
    · rw [hb] at h1
      rcases hl : inp.loginError with _ | el
      · rw [hl] at h1
        exact closeOnReturn_closes _ e h1
      · rw [hl] at h1
        exact closeOnReturn_closes _ e h1
    · rw [hb] at h1
      exact closeOnReturn_closes _ e h1

/-- Witness for the amended C3: a run cancelled at the top of its first
iteration returns successfully and the close has run. -/
theorem runNotifier_close_on_return_witness :
    (runNotifier ⟨true, true, 30, false, 10000000000, "", 0⟩
        ⟨.ok ⟨"u", "p"⟩, none, none,
          [⟨true, ⟨.ok (), .ok ""⟩, false, false, none⟩]⟩).2.closeCalled = true :=
  runNotifier_close_on_return ⟨true, true, 30, false, 10000000000, "", 0⟩
    ⟨.ok ⟨"u", "p"⟩, none, none, [⟨true, ⟨.ok (), .ok ""⟩, false, false, none⟩]⟩
    none (by decide) (by decide)

/-- C4: in single-shot mode, any outcome of the one status check other than
`Arrived` — `Placed`, `Preparing`, `Unknown`, or a failed read, which also
leaves the status non-`Arrived` — prints "order has not arrived" and ends
the process with exit code 1 after exactly one check, without looping. -/
theorem runNotifier_once_not_arrived :
    ∀ (config : Config) (inp : RunInput) (c : Credentials) (it : IterInput)
      (rest : List IterInput),
      config.Once = true →
      inp.credsResult = .ok c → inp.connectError = none → inp.loginError = none →
      inp.iters = it :: rest →
      it.cancelledAtTop = false →
      (CheckOrderStatus it.pageRead).1 ≠ OrderStatus.Arrived →
      runNotifier config inp =
        (.exited 1,
          { sessionOpened := true, closeCalled := false,
            prints := ["order has not arrived"], commandRuns := 0,
            checks := 1, reloads := 0 }) ∧
      processExitCode (runNotifier config inp).1 = some 1 := by
  intro config inp c it rest hOnce hCreds hConn hLogin hIters hTop hNA
  have hrun : runNotifier config inp =
      (.exited 1,
        { sessionOpened := true, closeCalled := false,
          prints := ["order has not arrived"], commandRuns := 0,
          checks := 1, reloads := 0 }) := by
    simp [runNotifier, hCreds, hConn, hLogin, hIters, runLoop, hTop, hNA, hOnce,
      closeOnReturn, initTrace]
  rw [hrun]
  exact ⟨rfl, rfl⟩

/-- Witness for C4: a single-shot run observing "Preparing Your Order". -/
theorem runNotifier_once_not_arrived_witness :
    runNotifier ⟨true, true, 30, true, 10000000000, "", 0⟩
        ⟨.ok ⟨"u", "p"⟩, none, none,
          [⟨false, ⟨.ok (), .ok "Preparing Your Order"⟩, false, false, none⟩]⟩ =
      (.exited 1,
        { sessionOpened := true, closeCalled := false,
          prints := ["order has not arrived"], commandRuns := 0,
          checks := 1, reloads := 0 }) ∧
    processExitCode (runNotifier ⟨true, true, 30, true, 10000000000, "", 0⟩
        ⟨.ok ⟨"u", "p"⟩, none, none,
          [⟨false, ⟨.ok (), .ok "Preparing Your Order"⟩, false, false, none⟩]⟩).1 =
      some 1 :=
  runNotifier_once_not_arrived ⟨true, true, 30, true, 10000000000, "", 0⟩
    ⟨.ok ⟨"u", "p"⟩, none, none,
      [⟨false, ⟨.ok (), .ok "Preparing Your Order"⟩, false, false, none⟩]⟩
    ⟨"u", "p"⟩
    ⟨false, ⟨.ok (), .ok "Preparing Your Order"⟩, false, false, none⟩ []
    rfl rfl rfl rfl rfl rfl (by decide)

/-- C5: when a check classifies the order as `Arrived`, the run prints
"order has arrived", runs the configured command exactly once when one is
configured and not otherwise, and returns successfully (process exit 0);
`cmdFails` and `Once` are arbitrary, so a failing command or single-shot
mode does not change the outcome. -/
theorem runNotifier_arrived_success :
    ∀ (config : Config) (inp : RunInput) (c : Credentials) (it : IterInput)
      (rest : List IterInput),
      inp.credsResult = .ok c → inp.connectError = none → inp.loginError = none →
      inp.iters = it :: rest →
      it.cancelledAtTop = false →
      CheckOrderStatus it.pageRead = (OrderStatus.Arrived, none) →
      runNotifier config inp =
        (.returned none,
          { sessionOpened := true, closeCalled := true,
            prints := ["order has arrived"],
            commandRuns := if config.Command = "" then 0 else 1,
            checks := 1, reloads := 0 }) ∧
      processExitCode (runNotifier config inp).1 = some 0 := by
  intro config inp c it rest hCreds hConn hLogin hIters hTop hArr
  have hrun : runNotifier config inp =
      (.returned none,
        { sessionOpened := true, closeCalled := true,
          prints := ["order has arrived"],
          commandRuns := if config.Command = "" then 0 else 1,
          checks := 1, reloads := 0 }) := by
    by_cases hcmd : config.Command = "" <;>
      simp [runNotifier, hCreds, hConn, hLogin, hIters, runLoop, hTop, hArr, hcmd,
        closeOnReturn, initTrace]
  rw [hrun]
  exact ⟨rfl, rfl⟩

/-- Witness for C5: a looping run with a configured (and failing) command
that observes the whitespace-padded arrival phrase. -/
theorem runNotifier_arrived_success_witness :
    runNotifier ⟨true, true, 30, false, 10000000000, "notify-send done", 0⟩
        ⟨.ok ⟨"u", "p"⟩, none, none,
          [⟨false, ⟨.ok (), .ok " Order Arrived "⟩, true, false, none⟩]⟩ =
      (.returned none,
        { sessionOpened := true, closeCalled := true,
          prints := ["order has arrived"], commandRuns := 1,
          checks := 1, reloads := 0 }) ∧
    processExitCode (runNotifier ⟨true, true, 30, false, 10000000000, "notify-send done", 0⟩
        ⟨.ok ⟨"u", "p"⟩, none, none,
          [⟨false, ⟨.ok (), .ok " Order Arrived "⟩, true, false, none⟩]⟩).1 =
      some 0 :=
  runNotifier_arrived_success ⟨true, true, 30, false, 10000000000, "notify-send done", 0⟩
    ⟨.ok ⟨"u", "p"⟩, none, none,
      [⟨false, ⟨.ok (), .ok " Order Arrived "⟩, true, false, none⟩]⟩
    ⟨"u", "p"⟩ ⟨false, ⟨.ok (), .ok " Order Arrived "⟩, true, false, none⟩ []
    rfl rfl rfl rfl rfl (by decide)

/-- C6: a cancellation observed at the top of a loop iteration returns
success immediately with the trace untouched (no further check or reload);
a cancellation during the inter-poll wait of a looping, non-arrived
iteration returns success with only that iteration's single check recorded
and no reload; either way the returned outcome is process exit 0. -/
theorem runLoop_cancellation_immediate :
    ∀ (config : Config) (tr : Trace) (it : IterInput) (rest : List IterInput),
      (it.cancelledAtTop = true →
        runLoop config (it :: rest) tr = (.returned none, tr)) ∧
      (it.cancelledAtTop = false → config.Once = false →
        (CheckOrderStatus it.pageRead).1 ≠ OrderStatus.Arrived →
        it.cancelledInWait = true →
        runLoop config (it :: rest) tr =
          (.returned none, { tr with checks := tr.checks + 1 })) ∧
      processExitCode (.returned none) = some 0 := by
  intro config tr it rest
  refine ⟨fun h => ?_, fun h1 h2 h3 h4 => ?_, rfl⟩
  · simp [runLoop, h]
  · simp [runLoop, h1, h2, h3, h4]

/-- Witness for C6: cancellation at the loop top, and cancellation during
the wait after a "Order Placed" check, both at concrete inputs. -/
theorem runLoop_cancellation_immediate_witness :
    runLoop ⟨true, true, 30, false, 10000000000, "", 0⟩
        [⟨true, ⟨.ok (), .ok ""⟩, false, false, none⟩] initTrace =
      (.returned none, initTrace) ∧
    runLoop ⟨true, true, 30, false, 10000000000, "", 0⟩
        [⟨false, ⟨.ok (), .ok "Order Placed"⟩, false, true, none⟩] initTrace =
      (.returned none, { initTrace with checks := 1 }) :=
  ⟨(runLoop_cancellation_immediate ⟨true, true, 30, false, 10000000000, "", 0⟩
      initTrace ⟨true, ⟨.ok (), .ok ""⟩, false, false, none⟩ []).1 rfl,
   (runLoop_cancellation_immediate ⟨true, true, 30, false, 10000000000, "", 0⟩
      initTrace ⟨false, ⟨.ok (), .ok "Order Placed"⟩, false, true, none⟩ []).2.1
      rfl rfl (by decide) rfl⟩
